import Mathlib

/-!
Shallow embedding of the secured-socket layer of src/lib/Socket/socket.js
(the makeSocket fragment): message-tag generation, connection-setup
validation, the unexpected-error recovery policy, raw sends, the
next-message wait, the offline-completion handler and the credential-update
handler.  JavaScript numbers are modelled as exact naturals (the epoch
counter and delay values stay far below 2^53, where doubles are exact);
JavaScript strings as Lean strings; absent/undefined values as Option.
-/

namespace BaileysSocket

/-! ## Decimal rendering of a JavaScript number

The template literal in generateMessageTag stringifies the epoch counter
with its decimal digits.  Digits are kept as Fin 10 so that the digit-to-
character map is injective by construction. -/

/-- Decimal digits of a natural number, most significant first. -/
def natDigits (n : Nat) : List (Fin 10) :=
  if h : n < 10 then [⟨n, h⟩]
  else natDigits (n / 10) ++ [⟨n % 10, Nat.mod_lt n (by omega)⟩]
  termination_by n
  decreasing_by exact Nat.div_lt_self (by omega) (by omega)

/-- Reads a digit list back as a natural number (left inverse of natDigits). -/
def parseDigits (l : List (Fin 10)) : Nat :=
  l.foldl (fun a d => a * 10 + d.val) 0

/-- ASCII character of a decimal digit. -/
def digitChar (d : Fin 10) : Char := Char.ofNat (48 + d.val)

/-- Decimal string of a natural number, as a JavaScript template literal
renders the epoch counter. -/
def renderNat (n : Nat) : String := ⟨(natDigits n).map digitChar⟩

theorem parseDigits_append_one (l : List (Fin 10)) (d : Fin 10) :
    parseDigits (l ++ [d]) = parseDigits l * 10 + d.val := by
  simp [parseDigits, List.foldl_append]

theorem parseDigits_natDigits (n : Nat) : parseDigits (natDigits n) = n := by
  induction n using Nat.strong_induction_on with
  | _ n ih =>
    rw [natDigits]
    split
    · simp [parseDigits]
    · rw [parseDigits_append_one, ih (n / 10) (Nat.div_lt_self (by omega) (by omega))]
      show n / 10 * 10 + n % 10 = n
      omega

theorem natDigits_injective : Function.Injective natDigits := by
  intro a b h
  have := congrArg parseDigits h
  rwa [parseDigits_natDigits, parseDigits_natDigits] at this

theorem digitChar_injective : Function.Injective digitChar := by
  decide

theorem renderNat_injective : Function.Injective renderNat := by
  intro a b h
  apply natDigits_injective
  have hdata : (natDigits a).map digitChar = (natDigits b).map digitChar := by
    have := congrArg String.data h
    simpa [renderNat] using this
  exact List.map_injective_iff.mpr digitChar_injective hdata

/-! ## Message tags (C1)

Source, src/lib/Socket/socket.js lines 47 and 52:
  let epoch = 1;
  const generateMessageTag = () => `${uqTagId}${epoch++}`;
The post-increment returns the current epoch and then bumps it. -/

/-- One call of generateMessageTag: returns the tag built from the unique
prefix and the current epoch, together with the incremented epoch. -/
def generateMessageTag (uqTagId : String) (epoch : Nat) : String × Nat :=
  (uqTagId ++ renderNat epoch, epoch + 1)

/-- Tags returned by n successive generateMessageTag calls starting from a
given epoch value. -/
def runTagCalls (uqTagId : String) (epoch : Nat) : Nat → List String
  | 0 => []
  | n + 1 =>
    (generateMessageTag uqTagId epoch).1 ::
      runTagCalls uqTagId (generateMessageTag uqTagId epoch).2 n

theorem runTagCalls_get (uqTagId : String) (e n i : Nat) (h : i < n) :
    (runTagCalls uqTagId e n).get? i = some (uqTagId ++ renderNat (e + i)) := by
  induction n generalizing e i with
  | zero => omega
  | succ n ih =>
    cases i with
    | zero => simp [runTagCalls, generateMessageTag]
    | succ i =>
      have := ih (e + 1) i (by omega)
      simp only [runTagCalls, generateMessageTag, List.get?]
      rw [this]
      have : e + 1 + i = e + (i + 1) := by omega
      rw [this]

theorem tag_ne_of_ne (uqTagId : String) (a b : Nat) (h : a ≠ b) :
    uqTagId ++ renderNat a ≠ uqTagId ++ renderNat b := by
  intro hc
  apply h
  apply renderNat_injective
  have hdata := congrArg String.data hc
  simp only [String.data_append] at hdata
  have := List.append_cancel_left hdata
  exact congrArg String.mk this

/-- C1: within one connection handle, successive generateMessageTag calls
starting from the initial epoch value 1 return tags of the form
uqTagId ++ epoch, where the epoch suffix starts at 1 and increments by one
per call; hence any two of the N returned tags are distinct and their epoch
suffixes are numerically increasing. -/
theorem generateMessageTag_tags_unique_increasing (uqTagId : String) (N i j : Nat)
    (hij : i < j) (hjN : j < N) :
    (runTagCalls uqTagId 1 N).get? i = some (uqTagId ++ renderNat (1 + i)) ∧
    (runTagCalls uqTagId 1 N).get? j = some (uqTagId ++ renderNat (1 + j)) ∧
    uqTagId ++ renderNat (1 + i) ≠ uqTagId ++ renderNat (1 + j) ∧
    1 + i < 1 + j := by
  refine ⟨runTagCalls_get uqTagId 1 N i (by omega),
    runTagCalls_get uqTagId 1 N j hjN,
    tag_ne_of_ne uqTagId (1 + i) (1 + j) (by omega),
    by omega⟩

theorem generateMessageTag_tags_unique_increasing_witness :
    (runTagCalls "3EB0" 1 3).get? 0 = some ("3EB0" ++ renderNat (1 + 0)) ∧
    (runTagCalls "3EB0" 1 3).get? 2 = some ("3EB0" ++ renderNat (1 + 2)) ∧
    "3EB0" ++ renderNat (1 + 0) ≠ "3EB0" ++ renderNat (1 + 2) ∧
    1 + 0 < 1 + 2 :=
  generateMessageTag_tags_unique_increasing "3EB0" 3 0 2 (by decide) (by decide)

/-! ## Connection setup (C2, C6)

Source, src/lib/Socket/socket.js lines 23-31:
  const url = typeof waWebSocketUrl === 'string' ? new url_1.URL(waWebSocketUrl) : waWebSocketUrl;
  if (config.mobile || url.protocol === 'tcp:') {
      throw new boom_1.Boom('Mobile API is not supported anymore', { statusCode: DisconnectReason.loggedOut });
  }
  if (url.protocol === 'wss' && authState?.creds?.routingInfo) {
      url.searchParams.append('ED', authState.creds.routingInfo.toString('base64url'));
  }
  const ws = new Client_1.WebSocketClient(url, config);
  ws.connect();
A WHATWG URL object (Node's url.URL) always reports its protocol with the
trailing colon, e.g. "wss:" or "tcp:"; the URLm model keeps that convention. -/

/-- Disconnect reason codes used by the fragment (the Types module is
outside src/, so the reasons are modelled as an enumeration). -/
inductive DisconnectReason where
  | loggedOut
  | connectionClosed
  | connectionLost
  | timedOut
  deriving DecidableEq

/-- A Boom error: message plus status code. -/
structure Boom where
  message : String
  statusCode : DisconnectReason
  deriving DecidableEq

/-- WHATWG URL model: protocol includes the trailing colon, exactly as
Node's url.URL reports it (the source itself compares against "tcp:"). -/
structure URLm where
  protocol : String
  host : String
  pathname : String
  searchParams : List (String × String)
  deriving DecidableEq

/-- Base64url alphabet (RFC 4648 section 5). -/
def base64urlAlphabet : List Char :=
  "ABCDEFGHIJKLMNOPQRSTUVWXYZabcdefghijklmnopqrstuvwxyz0123456789-_".toList

/-- Character for one 6-bit group. -/
def b64Char (n : Nat) : Char := base64urlAlphabet.getD n 'A'

/-- Base64url encoding of a byte sequence, unpadded, as Node's
Buffer.toString with the base64url encoding produces. -/
def base64urlEncode : List Nat → String
  | [] => ""
  | [a] => ⟨[b64Char (a / 4), b64Char (a % 4 * 16)]⟩
  | [a, b] => ⟨[b64Char (a / 4), b64Char (a % 4 * 16 + b / 16), b64Char (b % 16 * 4)]⟩
  | a :: b :: c :: rest =>
    (⟨[b64Char (a / 4), b64Char (a % 4 * 16 + b / 16), b64Char (b % 16 * 4 + c / 64),
       b64Char (c % 64)]⟩ : String) ++ base64urlEncode rest

/-- Configuration slice consulted by the setup code: the mobile flag, the
endpoint URL, the credentials' optional routing info bytes, and the delay
configuration used elsewhere. -/
structure SocketConfig where
  mobile : Bool
  waWebSocketUrl : URLm
  routingInfo : Option (List Nat)
  backoffDelayMs : Option Nat
  connectTimeoutMs : Nat
  deriving DecidableEq

/-- Transport actions performed by the setup code after validation. -/
inductive SetupAction where
  | createClient (url : URLm)
  | connect
  deriving DecidableEq

/-- URL.searchParams.append adds one key-value pair at the end. -/
def appendSearchParam (u : URLm) (k v : String) : URLm :=
  { u with searchParams := u.searchParams ++ [(k, v)] }

/-- Setup phase of makeSocket (lines 23-31): validates the mobile flag and
the scheme, throwing a loggedOut Boom on rejection; otherwise appends the
ED routing parameter when the protocol equals the string "wss" and routing
info is present, then creates the WebSocket client and connects.  The error
branch carries no SetupAction: no client is created and connect is never
invoked there. -/
def makeSocketSetup (cfg : SocketConfig) : Except Boom (URLm × List SetupAction) :=
  if cfg.mobile || cfg.waWebSocketUrl.protocol == "tcp:" then
    Except.error ⟨"Mobile API is not supported anymore", DisconnectReason.loggedOut⟩
  else
    let url :=
      if cfg.waWebSocketUrl.protocol == "wss" then
        match cfg.routingInfo with
        | some ri => appendSearchParam cfg.waWebSocketUrl "ED" (base64urlEncode ri)
        | none => cfg.waWebSocketUrl
      else cfg.waWebSocketUrl
    Except.ok (url, [SetupAction.createClient url, SetupAction.connect])

/-- C2: a configuration with the mobile flag set, or with the unsupported
tcp: scheme, makes setup throw the permanent loggedOut Boom, and no ok
result (hence no client creation and no connect action) is ever produced. -/
theorem makeSocketSetup_rejects_mobile_or_tcp (cfg : SocketConfig)
    (h : cfg.mobile = true ∨ cfg.waWebSocketUrl.protocol = "tcp:") :
    makeSocketSetup cfg =
      Except.error ⟨"Mobile API is not supported anymore", DisconnectReason.loggedOut⟩ ∧
    ∀ r, makeSocketSetup cfg ≠ Except.ok r := by
  have hcond : (cfg.mobile || cfg.waWebSocketUrl.protocol == "tcp:") = true := by
    rcases h with h | h <;> simp [h]
  refine ⟨by simp [makeSocketSetup, hcond], ?_⟩
  intro r
  simp [makeSocketSetup, hcond]

/-- Rejected configuration used to witness the C2 theorem. -/
def c2Config : SocketConfig :=
  { mobile := true
    waWebSocketUrl := { protocol := "wss:", host := "web.whatsapp.com", pathname := "/ws", searchParams := [] }
    routingInfo := none
    backoffDelayMs := none
    connectTimeoutMs := 20000 }

theorem makeSocketSetup_rejects_mobile_or_tcp_witness :
    (c2Config.mobile = true ∨ c2Config.waWebSocketUrl.protocol = "tcp:") ∧
    makeSocketSetup c2Config =
      Except.error ⟨"Mobile API is not supported anymore", DisconnectReason.loggedOut⟩ ∧
    ∀ r, makeSocketSetup c2Config ≠ Except.ok r :=
  ⟨Or.inl rfl, makeSocketSetup_rejects_mobile_or_tcp c2Config (Or.inl rfl)⟩

/-- Configuration with the secure scheme (WHATWG protocol value "wss:") and
routing info present, as produced by parsing the default endpoint. -/
def c6Config : SocketConfig :=
  { mobile := false
    waWebSocketUrl := { protocol := "wss:", host := "web.whatsapp.com", pathname := "/ws", searchParams := [] }
    routingInfo := some [1, 2, 3]
    backoffDelayMs := none
    connectTimeoutMs := 20000 }

/-- C6 counter-evidence: with the secure scheme and routing info present,
the setup code leaves the query string unchanged — the ED parameter is
never appended, because line 27 compares url.protocol against "wss" while a
WHATWG URL's protocol is "wss:" (the colon the code's own tcp: check three
lines above includes).  The claimed append is therefore dead code. -/
theorem makeSocketSetup_wss_routing_never_appended :
    c6Config.routingInfo.isSome = true ∧
    c6Config.waWebSocketUrl.protocol = "wss:" ∧
    makeSocketSetup c6Config =
      Except.ok (c6Config.waWebSocketUrl,
        [SetupAction.createClient c6Config.waWebSocketUrl, SetupAction.connect]) ∧
    c6Config.waWebSocketUrl.searchParams = [] :=
  ⟨rfl, rfl, rfl, rfl⟩

/-! ## Unexpected-error recovery policy (C3, C4, C5)

Source, src/lib/Socket/socket.js lines 79-100:
  const onUnexpectedError = (err, msg) => {
      logger.error({ err }, `unexpected error in ...`);
      const message = (err && ((err.stack || err.message) || String(err))).toLowerCase();
      if (message.includes('bad mac') || (message.includes('mac') && message.includes('invalid'))) {
          try {
              uploadPreKeysToServerIfRequired(true).catch(e => logger.warn(..., 'failed to re-upload prekeys after bad mac'));
          } catch (_e) { /* ignore */ }
      }
      if (message.includes('429') || message.includes('rate limit')) {
          const wait = Math.min(30000, (config.backoffDelayMs || 5000));
          logger.info({ wait }, 'backing off due to rate limit');
          setTimeout(() => { /* intentionally empty */ }, wait);
      }
  };
The function returns Except so that "never throws" is a provable statement:
the try/catch swallows a synchronous throw of the re-upload call, and its
asynchronous rejection is consumed by the catch handler (logged only). -/

/-- JavaScript || over a possibly-undefined number: undefined and 0 are
falsy and select the default. -/
def jsOr (o : Option Nat) (d : Nat) : Nat :=
  match o with
  | some v => if v = 0 then d else v
  | none => d

/-- Substring occurrence over character lists (String.prototype.includes). -/
def hasSubstr (pat : List Char) : List Char → Bool
  | [] => pat.isEmpty
  | c :: t => pat.isPrefixOf (c :: t) || hasSubstr pat t

/-- JavaScript String.prototype.includes. -/
def strIncludes (s pat : String) : Bool := hasSubstr pat.data s.data

/-- ASCII lowercasing of one character, as String.prototype.toLowerCase
acts on the ASCII range (the patterns matched against are all ASCII). -/
def jsCharLower (c : Char) : Char :=
  if 65 ≤ c.toNat ∧ c.toNat ≤ 90 then Char.ofNat (c.toNat + 32) else c

/-- JavaScript String.prototype.toLowerCase on ASCII text. -/
def jsToLowerCase (s : String) : String := ⟨s.data.map jsCharLower⟩

/-- A (truthy) JavaScript error value as onUnexpectedError consumes it:
optional stack, optional message, and its String(err) rendering. -/
structure JsError where
  stack : Option String
  message : Option String
  asString : String
  deriving DecidableEq

/-- JavaScript truthiness filter on a possibly-undefined string: undefined
and the empty string are falsy. -/
def jsTruthyStr : Option String → Option String
  | some s => if s.isEmpty then none else some s
  | none => none

/-- The text onUnexpectedError classifies: (err.stack || err.message) ||
String(err). -/
def errText (e : JsError) : String :=
  match jsTruthyStr e.stack with
  | some s => s
  | none =>
    match jsTruthyStr e.message with
    | some s => s
    | none => e.asString

/-- Line 84: the MAC-mismatch pattern. -/
def isMacMismatch (m : String) : Bool :=
  strIncludes m "bad mac" || (strIncludes m "mac" && strIncludes m "invalid")

/-- Line 93: the rate-limit pattern. -/
def isRateLimited (m : String) : Bool :=
  strIncludes m "429" || strIncludes m "rate limit"

/-- Result of the asynchronous uploadPreKeysToServerIfRequired(true) call:
the outer layer is a synchronous throw while starting it (swallowed by the
try/catch), the inner layer the promise outcome (rejections are consumed by
the attached catch handler). -/
def promiseRejected : Except String (Except String Unit) → Bool
  | Except.ok (Except.error _) => true
  | _ => false

/-- Everything onUnexpectedError does besides returning: the error log
always happens, the prekey re-upload fires on the MAC pattern (its own
failure merely logged), the empty-callback timer is scheduled with the
computed wait on the rate-limit pattern, and the connection is never
closed by this function. -/
structure RecoveryOutcome where
  loggedError : Bool
  prekeyReupload : Bool
  reuploadFailureLogged : Bool
  backoffWait : Option Nat
  connectionClosed : Bool
  deriving DecidableEq

/-- onUnexpectedError, lines 79-100.  Total up to the Except wrapper, which
records that no exception escapes. -/
def onUnexpectedError (backoffDelayMs : Option Nat) (err : JsError)
    (reuploadCall : Except String (Except String Unit)) : Except String RecoveryOutcome :=
  let message := jsToLowerCase (errText err)
  Except.ok
    { loggedError := true
      prekeyReupload := isMacMismatch message
      reuploadFailureLogged := isMacMismatch message && promiseRejected reuploadCall
      backoffWait :=
        if isRateLimited message then some (min 30000 (jsOr backoffDelayMs 5000)) else none
      connectionClosed := false }

/-- C3: an error whose lowercased text matches the rate-limit pattern makes
onUnexpectedError schedule a wait of exactly min 30000 of the configured
backoff value (5000 when unset), and that wait never exceeds 30000ms
whatever the configured value is. -/
theorem onUnexpectedError_rate_limit_backoff_capped (b : Option Nat) (err : JsError)
    (r : Except String (Except String Unit))
    (h : isRateLimited (jsToLowerCase (errText err)) = true) :
    ∃ out, onUnexpectedError b err r = Except.ok out ∧
      out.backoffWait = some (min 30000 (jsOr b 5000)) ∧
      ∀ w, out.backoffWait = some w → w ≤ 30000 := by
  refine ⟨_, rfl, ?_, ?_⟩
  · simp [onUnexpectedError, h]
  · intro w hw
    simp [onUnexpectedError, h] at hw
    omega

/-- Concrete rate-limited error used by the C3 witness and the C4 record. -/
def err429Example : JsError :=
  { stack := none, message := some "Request failed: 429 Too Many Requests", asString := "Error" }

theorem onUnexpectedError_rate_limit_backoff_capped_witness :
    isRateLimited (jsToLowerCase (errText err429Example)) = true ∧
    (∃ out, onUnexpectedError (some 60000) err429Example (Except.ok (Except.ok ())) = Except.ok out ∧
      out.backoffWait = some (min 30000 (jsOr (some 60000) 5000)) ∧
      ∀ w, out.backoffWait = some w → w ≤ 30000) :=
  ⟨by decide,
   onUnexpectedError_rate_limit_backoff_capped (some 60000) err429Example
     (Except.ok (Except.ok ())) (by decide)⟩

/-- C5: on a MAC-mismatch error the prekey re-upload is triggered and its
own failure is only logged (onUnexpectedError still returns normally for
every re-upload outcome); on an error matching neither pattern the function
only logs: no re-upload, no backoff, no connection close, no throw. -/
theorem onUnexpectedError_mac_reupload_other_logged (b : Option Nat) (err : JsError)
    (r : Except String (Except String Unit)) :
    (isMacMismatch (jsToLowerCase (errText err)) = true →
      ∃ out, onUnexpectedError b err r = Except.ok out ∧
        out.prekeyReupload = true ∧
        out.reuploadFailureLogged = promiseRejected r ∧
        out.connectionClosed = false) ∧
    (isMacMismatch (jsToLowerCase (errText err)) = false →
     isRateLimited (jsToLowerCase (errText err)) = false →
      onUnexpectedError b err r =
        Except.ok { loggedError := true, prekeyReupload := false,
                    reuploadFailureLogged := false, backoffWait := none,
                    connectionClosed := false }) := by
  constructor
  · intro h
    exact ⟨_, rfl, by simp [onUnexpectedError, h], by simp [onUnexpectedError, h], rfl⟩
  · intro h1 h2
    simp [onUnexpectedError, h1, h2]

/-- Concrete MAC-mismatch error for the C5 witness. -/
def errMacExample : JsError :=
  { stack := none, message := some "Bad MAC", asString := "Error: Bad MAC" }

/-- Concrete error matching neither recovery pattern, for the C5 witness. -/
def errOtherExample : JsError :=
  { stack := none, message := some "stream errored out", asString := "Error" }

theorem onUnexpectedError_mac_reupload_other_logged_witness :
    (∃ out, onUnexpectedError none errMacExample (Except.ok (Except.error "upload failed")) = Except.ok out ∧
      out.prekeyReupload = true ∧
      out.reuploadFailureLogged = promiseRejected (Except.ok (Except.error "upload failed")) ∧
      out.connectionClosed = false) ∧
    onUnexpectedError none errOtherExample (Except.ok (Except.ok ())) =
      Except.ok { loggedError := true, prekeyReupload := false,
                  reuploadFailureLogged := false, backoffWait := none,
                  connectionClosed := false } :=
  ⟨(onUnexpectedError_mac_reupload_other_logged none errMacExample
      (Except.ok (Except.error "upload failed"))).1 (by decide),
   (onUnexpectedError_mac_reupload_other_logged none errOtherExample
      (Except.ok (Except.ok ()))).2 (by decide) (by decide)⟩

/-! ## Raw sends and the advisory backoff window (C4)

Source, src/lib/Socket/socket.js lines 55-69:
  const sendRawMessage = async (data) => {
      if (!ws.isOpen) {
          throw new boom_1.Boom('Connection Closed', { statusCode: DisconnectReason.connectionClosed });
      }
      const bytes = noise.encodeFrame(data);
      await promiseTimeout(connectTimeoutMs, async (resolve, reject) => { ... sendPromise.call(ws, bytes) ... });
  };
The only state sendRawMessage consults is ws.isOpen.  The rate-limit
branch of onUnexpectedError (lines 96-98) schedules setTimeout with an
intentionally empty callback: firing it writes no state, and no backoff
deadline is ever recorded anywhere sendRawMessage could read. -/

/-- sendRawMessage: rejects with Connection Closed when the transport is
not open, otherwise encodes the frame and hands the bytes to the
transport, propagating the transport's send outcome.  Returns the bytes
handed over on success. -/
def sendRawMessage (wsOpen : Bool) (encodeFrame : List Nat → List Nat)
    (sendOutcome : Except Boom Unit) (data : List Nat) : Except Boom (List Nat) :=
  if !wsOpen then Except.error ⟨"Connection Closed", DisconnectReason.connectionClosed⟩
  else
    match sendOutcome with
    | Except.ok _ => Except.ok (encodeFrame data)
    | Except.error e => Except.error e

/-- Ambient state a throttling implementation would consult: the clock and
the deadline of the timer scheduled by the rate-limit branch (whose
callback body is empty and writes nothing). -/
structure ThrottleEnv where
  wsOpen : Bool
  now : Nat
  noopTimerDeadline : Option Nat
  deriving DecidableEq

/-- The empty setTimeout callback of lines 96-98: it performs no state
change at all. -/
def noopTimerCallback (env : ThrottleEnv) : ThrottleEnv := env

/-- sendRawMessage in its ambient environment.  The source reads only
ws.isOpen; neither the clock nor the scheduled no-op timer deadline is
consulted, so the wrapper forwards to sendRawMessage on the open flag
alone. -/
def sendRawMessageAt (env : ThrottleEnv) (encodeFrame : List Nat → List Nat)
    (sendOutcome : Except Boom Unit) (data : List Nat) : Except Boom (List Nat) :=
  sendRawMessage env.wsOpen encodeFrame sendOutcome data

/-- C4 counter-evidence: after onUnexpectedError processes a rate-limit
error and schedules the 5000ms window, a send issued at time 100 — well
inside the window — succeeds immediately with the same result as a send
issued long after the window (and after the no-op timer fired), so
sendRawMessage's behaviour does not differ inside versus outside the
window: subsequent sends are neither delayed nor blocked. -/
theorem sendRawMessage_not_throttled_inside_backoff_window :
    (∃ out, onUnexpectedError (some 5000) err429Example (Except.ok (Except.ok ())) = Except.ok out ∧
       out.backoffWait = some 5000) ∧
    sendRawMessageAt ⟨true, 100, some 5000⟩ id (Except.ok ()) [7, 7] = Except.ok [7, 7] ∧
    sendRawMessageAt (noopTimerCallback ⟨true, 100, some 5000⟩) id (Except.ok ()) [7, 7] =
      sendRawMessageAt ⟨true, 99999, none⟩ id (Except.ok ()) [7, 7] :=
  ⟨⟨_, rfl, by decide⟩, rfl, rfl⟩

/-! ## Awaiting the next message (C7)

Source, src/lib/Socket/socket.js lines 102-121:
  const awaitNextMessage = async (sendMsg) => {
      if (!ws.isOpen) {
          throw new boom_1.Boom('Connection Closed', { statusCode: DisconnectReason.connectionClosed });
      }
      let onOpen;
      let onClose;
      const result = promiseTimeout(connectTimeoutMs, (resolve, reject) => {
          onOpen = resolve;
          onClose = mapWebSocketError(reject);
          ws.on('frame', onOpen);
          ws.on('close', onClose);
          ws.on('error', onClose);
      }).finally(() => {
          ws.off('frame', onOpen);
          ws.off('close', onClose);
          ws.off('error', onClose);
      });
Utils.promiseTimeout and the emitter live outside src/. -/

/-- Events that can settle the wait, in transport delivery order; the
timeout tick is the promiseTimeout deadline expiring. -/
inductive AwaitEvent where
  | frame (payload : List Nat)
  | close (msg : String)
  | wsError (msg : String)
  | timeout
  deriving DecidableEq

/-- mapWebSocketError (end of socket.js): wraps a websocket error into a
Boom whose status comes from getCodeFromWSError. -/
def mapWebSocketError (getCode : String → DisconnectReason) (m : String) : Boom :=
  ⟨"WebSocket Error (" ++ m ++ ")", getCode m⟩

/-- Modelled from the spec: Utils.promiseTimeout (outside src/) races the
registered resolvers against its deadline, and the promise settles exactly
once with whichever of frame / close / error / timeout the transport
delivers first.  This maps one settling event to the settled outcome. -/
def settleOutcome (getCode : String → DisconnectReason) : AwaitEvent → Except Boom (List Nat)
  | AwaitEvent.frame p => Except.ok p
  | AwaitEvent.close m => Except.error (mapWebSocketError getCode m)
  | AwaitEvent.wsError m => Except.error (mapWebSocketError getCode m)
  | AwaitEvent.timeout => Except.error ⟨"Timed Out", DisconnectReason.timedOut⟩

/-- Listener counts attached to the transport emitter for the three event
names awaitNextMessage touches. -/
structure Listeners where
  frame : Nat
  close : Nat
  err : Nat
  deriving DecidableEq

/-- The three ws.on registrations of lines 113-115. -/
def addListeners (l : Listeners) : Listeners := ⟨l.frame + 1, l.close + 1, l.err + 1⟩

/-- The three ws.off removals of the finally block, lines 118-120. -/
def removeListeners (l : Listeners) : Listeners := ⟨l.frame - 1, l.close - 1, l.err - 1⟩

/-- awaitNextMessage, lines 102-121.  The outer Except is the synchronous
throw; the returned pair is the promise settlement (none when no event and
no timeout ever arrives, in which case the finally block has not yet run)
together with the listeners attached after the call completes. -/
def awaitNextMessage (getCode : String → DisconnectReason) (wsOpen : Bool)
    (l0 : Listeners) (events : List AwaitEvent) :
    Except Boom (Option (Except Boom (List Nat)) × Listeners) :=
  if !wsOpen then
    Except.error ⟨"Connection Closed", DisconnectReason.connectionClosed⟩
  else
    let l1 := addListeners l0
    match events with
    | [] => Except.ok (none, l1)
    | e :: _ => Except.ok (some (settleOutcome getCode e), removeListeners l1)

/-- C7: when the transport is not open awaitNextMessage throws Connection
Closed immediately; otherwise it settles exactly once with the outcome of
the first delivered event — the next frame resolves it, a close, error or
timeout rejects it — and upon settlement the listener counts return to
exactly what they were before the call: none of the three registered
listeners remains attached. -/
theorem awaitNextMessage_settles_once_and_detaches (getCode : String → DisconnectReason)
    (l0 : Listeners) (events : List AwaitEvent) :
    awaitNextMessage getCode false l0 events =
      Except.error ⟨"Connection Closed", DisconnectReason.connectionClosed⟩ ∧
    (∀ e rest, events = e :: rest →
      awaitNextMessage getCode true l0 events =
        Except.ok (some (settleOutcome getCode e), l0)) := by
  constructor
  · rfl
  · intro e rest hev
    subst hev
    rfl

theorem awaitNextMessage_settles_once_and_detaches_witness :
    awaitNextMessage (fun _ => DisconnectReason.connectionLost) false ⟨0, 0, 0⟩
        [AwaitEvent.frame [1, 2]] =
      Except.error ⟨"Connection Closed", DisconnectReason.connectionClosed⟩ ∧
    awaitNextMessage (fun _ => DisconnectReason.connectionLost) true ⟨0, 0, 0⟩
        [AwaitEvent.frame [1, 2]] =
      Except.ok (some (settleOutcome (fun _ => DisconnectReason.connectionLost)
        (AwaitEvent.frame [1, 2])), ⟨0, 0, 0⟩) :=
  ⟨(awaitNextMessage_settles_once_and_detaches (fun _ => DisconnectReason.connectionLost)
      ⟨0, 0, 0⟩ [AwaitEvent.frame [1, 2]]).1,
   (awaitNextMessage_settles_once_and_detaches (fun _ => DisconnectReason.connectionLost)
      ⟨0, 0, 0⟩ [AwaitEvent.frame [1, 2]]).2 (AwaitEvent.frame [1, 2]) [] rfl⟩

/-! ## Offline-notification completion (C8)

Source, src/lib/Socket/socket.js lines 122-128 (buffering engages and the
didStartBuffer flag is set when the logged-in path is taken):
  if (sendMsg) {
      ev.buffer();
      didStartBuffer = true;
  }
and lines 131-140:
  ws.on('CB:ib,,offline', (node) => {
      const child = getBinaryNodeChild(node, 'offline');
      const offlineNotifs = +(child?.attrs.count || 0);
      logger.info(`handled ... offline messages/notifications`);
      if (didStartBuffer) {
          ev.flush();
      }
      ev.emit('connection.update', { receivedPendingNotifications: true });
  });
The didStartBuffer flag starts false for a fresh connection and is set only
by the buffering-start step. -/

/-- A binary node: tag, attributes, child nodes. -/
inductive BinaryNode where
  | node (tag : String) (attrs : List (String × String)) (content : List BinaryNode)

/-- Tag of a binary node. -/
def BinaryNode.tag : BinaryNode → String
  | BinaryNode.node t _ _ => t

/-- Attributes of a binary node. -/
def BinaryNode.attrs : BinaryNode → List (String × String)
  | BinaryNode.node _ a _ => a

/-- Children of a binary node. -/
def BinaryNode.content : BinaryNode → List BinaryNode
  | BinaryNode.node _ _ c => c

/-- WABinary.getBinaryNodeChild: first child carrying the given tag. -/
def getBinaryNodeChild (n : BinaryNode) (tag : String) : Option BinaryNode :=
  n.content.find? (fun c => c.tag == tag)

/-- JavaScript unary plus on (attrs.count || 0): a decimal attribute string
parses to its value, an absent attribute yields 0. -/
def jsPlusCount (s : Option String) : Nat :=
  match s with
  | some str => (str.toNat?).getD 0
  | none => 0

/-- The connection.update event payload (the fields the fragment emits). -/
structure ConnectionUpdate where
  connection : Option String
  receivedPendingNotifications : Option Bool
  qr : Option String
  deriving DecidableEq

/-- What the CB:ib,,offline handler does: logs the handled count, flushes
the event buffer exactly when didStartBuffer is set, then emits the
connection.update event. -/
structure OfflineHandlerResult where
  handledCount : Nat
  flushed : Bool
  emitted : ConnectionUpdate
  deriving DecidableEq

/-- The buffering-start step of lines 122-127: returns the new
didStartBuffer flag and whether ev.buffer() was invoked. -/
def startBufferingStep (cond didStartBuffer : Bool) : Bool × Bool :=
  if cond then (true, true) else (didStartBuffer, false)

/-- The CB:ib,,offline handler, lines 131-140. -/
def offlineNodeHandler (didStartBuffer : Bool) (node : BinaryNode) : OfflineHandlerResult :=
  let child := getBinaryNodeChild node "offline"
  { handledCount := jsPlusCount (child.bind (fun c => c.attrs.lookup "count"))
    flushed := didStartBuffer
    emitted := { connection := none, receivedPendingNotifications := some true, qr := none } }

/-- C8: starting from a fresh connection (didStartBuffer false), after the
buffering-start step runs with an arbitrary condition, the offline
completion handler flushes the event buffer exactly when ev.buffer() had
been invoked, and in every case emits connection.update with
receivedPendingNotifications set to true. -/
theorem offlineNodeHandler_flush_iff_buffered (cond : Bool) (node : BinaryNode) :
    ((offlineNodeHandler (startBufferingStep cond false).1 node).flushed =
      (startBufferingStep cond false).2) ∧
    (∀ d : Bool, (offlineNodeHandler d node).flushed = d) ∧
    (∀ d : Bool, (offlineNodeHandler d node).emitted =
      { connection := none, receivedPendingNotifications := some true, qr := none }) := by
  refine ⟨?_, fun d => rfl, fun d => rfl⟩
  cases cond <;> rfl

/-! ## Credential updates (C9, C10)

Source, src/lib/Socket/socket.js lines 142-157 and 167-169:
  ev.on('creds.update', update => {
      const name = update.me?.name;
      if (creds.me?.name !== name) {
          logger.debug({ name }, 'updated pushName');
          sendNode({ tag: 'presence', attrs: { name: name } })
              .catch(err => { logger.warn({ trace: err.stack }, 'error in sending presence update on name change'); });
      }
      Object.assign(creds, update);
  });
  ...
  get user() { return authState.creds.me; }
creds is the very object destructured out of authState (const { creds } =
authState), so Object.assign mutates the object the user getter reads. -/

/-- A primitive JavaScript value as it occurs inside credentials fields. -/
inductive JsPrim where
  | str (s : String)
  | num (n : Nat)
  deriving DecidableEq

/-- A top-level credentials field value: a primitive or a one-level object
(sufficient for the me object whose name field the handler reads). -/
inductive JsValue where
  | prim (p : JsPrim)
  | obj (fields : List (String × JsPrim))
  deriving DecidableEq

/-- Optional-chained field read, update.me?.name style: undefined unless
the value is an object carrying the field. -/
def jsField (v : Option JsValue) (k : String) : Option JsPrim :=
  match v with
  | some (JsValue.obj fields) => fields.lookup k
  | _ => none

/-- A JavaScript object as a key-to-value map; none marks an absent key. -/
def JsObject : Type := String → Option JsValue

/-- Object.assign(target, update): every own key of the update overwrites
the target's entry, every other key keeps the target's value; the target
object is mutated in place. -/
def objAssign (target update : JsObject) : JsObject :=
  fun k =>
    match update k with
    | some v => some v
    | none => target k

/-- The heap cell holding the credentials: credsId models the JavaScript
object identity (reference), creds its current contents.  authState.creds
and the destructured creds alias the same cell. -/
structure ConnHeap where
  credsId : Nat
  creds : JsObject

/-- Everything the creds.update handler does: the resulting heap, the
presence node send (some name means a presence node with that name
attribute was sent; name none is the undefined name attribute), and
whether a failed send was logged by the attached catch handler. -/
structure CredsUpdateResult where
  heap : ConnHeap
  presenceSent : Option (Option JsPrim)
  presenceFailureLogged : Bool

/-- The creds.update handler, lines 142-157.  sendOutcome is the eventual
outcome of the presence sendNode call; its rejection is consumed by the
catch handler (logged only), and Object.assign runs unconditionally. -/
def handleCredsUpdate (h : ConnHeap) (update : JsObject)
    (sendOutcome : Except String Unit) : CredsUpdateResult :=
  let name := jsField (update "me") "name"
  let merged := objAssign h.creds update
  if jsField (h.creds "me") "name" = name then
    { heap := ⟨h.credsId, merged⟩
      presenceSent := none
      presenceFailureLogged := false }
  else
    { heap := ⟨h.credsId, merged⟩
      presenceSent := some name
      presenceFailureLogged :=
        match sendOutcome with
        | Except.error _ => true
        | Except.ok _ => false }

/-- The user getter, lines 167-169: reads the me field of the (shared,
mutated-in-place) credentials object. -/
def userAccessor (h : ConnHeap) : Option JsValue := h.creds "me"

theorem handleCredsUpdate_heap_eq (h : ConnHeap) (update : JsObject)
    (so : Except String Unit) :
    (handleCredsUpdate h update so).heap = ⟨h.credsId, objAssign h.creds update⟩ := by
  cases so <;>
    by_cases hname : jsField (h.creds "me") "name" = jsField (update "me") "name" <;>
    simp [handleCredsUpdate, hname]

theorem handleCredsUpdate_presenceSent_eq (h : ConnHeap) (update : JsObject)
    (so : Except String Unit) :
    (handleCredsUpdate h update so).presenceSent =
      if jsField (h.creds "me") "name" = jsField (update "me") "name" then none
      else some (jsField (update "me") "name") := by
  cases so <;>
    by_cases hname : jsField (h.creds "me") "name" = jsField (update "me") "name" <;>
    simp [handleCredsUpdate, hname]

theorem handleCredsUpdate_failureLogged_eq (h : ConnHeap) (update : JsObject)
    (so : Except String Unit) :
    (handleCredsUpdate h update so).presenceFailureLogged =
      if jsField (h.creds "me") "name" = jsField (update "me") "name" then false
      else (match so with | Except.error _ => true | Except.ok _ => false) := by
  cases so <;>
    by_cases hname : jsField (h.creds "me") "name" = jsField (update "me") "name" <;>
    simp [handleCredsUpdate, hname]

/-- C9: handling a creds.update merges the partial update into the
credentials in place — every field named in the update now equals the
update's value, every other field is unchanged, the object identity
(credsId) is preserved, and the user accessor reads the merged me field —
whatever the outcome of the presence send was. -/
theorem handleCredsUpdate_merges_in_place (h : ConnHeap) (update : JsObject)
    (so : Except String Unit) :
    (∀ k v, update k = some v → (handleCredsUpdate h update so).heap.creds k = some v) ∧
    (∀ k, update k = none → (handleCredsUpdate h update so).heap.creds k = h.creds k) ∧
    (handleCredsUpdate h update so).heap.credsId = h.credsId ∧
    userAccessor (handleCredsUpdate h update so).heap = objAssign h.creds update "me" := by
  rw [handleCredsUpdate_heap_eq]
  refine ⟨?_, ?_, rfl, rfl⟩
  · intro k v hk
    simp [objAssign, hk]
  · intro k hk
    simp [objAssign, hk]

/-- Example credentials: me is an object with name Alice; used by the C9
and C10 witnesses. -/
def credsExample : JsObject :=
  fun k =>
    if k = "me" then some (JsValue.obj [("name", JsPrim.str "Alice"), ("id", JsPrim.str "123@s")])
    else if k = "registered" then some (JsValue.prim (JsPrim.num 1))
    else none

/-- Example update carrying no me field, used by the C9 witness. -/
def updateNoMeExample : JsObject :=
  fun k => if k = "registered" then some (JsValue.prim (JsPrim.num 0)) else none

theorem handleCredsUpdate_merges_in_place_witness :
    (updateNoMeExample "registered" = some (JsValue.prim (JsPrim.num 0)) →
      (handleCredsUpdate ⟨7, credsExample⟩ updateNoMeExample (Except.ok ())).heap.creds "registered" =
        some (JsValue.prim (JsPrim.num 0))) ∧
    (updateNoMeExample "me" = none →
      (handleCredsUpdate ⟨7, credsExample⟩ updateNoMeExample (Except.ok ())).heap.creds "me" =
        credsExample "me") ∧
    (handleCredsUpdate ⟨7, credsExample⟩ updateNoMeExample (Except.ok ())).heap.credsId = 7 ∧
    userAccessor (handleCredsUpdate ⟨7, credsExample⟩ updateNoMeExample (Except.ok ())).heap =
      objAssign credsExample updateNoMeExample "me" :=
  ⟨fun hk => (handleCredsUpdate_merges_in_place ⟨7, credsExample⟩ updateNoMeExample
      (Except.ok ())).1 "registered" (JsValue.prim (JsPrim.num 0)) hk,
   fun hk => (handleCredsUpdate_merges_in_place ⟨7, credsExample⟩ updateNoMeExample
      (Except.ok ())).2.1 "me" hk,
   (handleCredsUpdate_merges_in_place ⟨7, credsExample⟩ updateNoMeExample
      (Except.ok ())).2.2.1,
   (handleCredsUpdate_merges_in_place ⟨7, credsExample⟩ updateNoMeExample
      (Except.ok ())).2.2.2⟩

/-- C10: the presence node is sent exactly when the update's me-name
differs from the current credentials' me-name; in particular an update
with no me.name while the credentials have one sends a presence node whose
name attribute is undefined; and a failing send is only logged while the
merge still happens for every field of the update. -/
theorem handleCredsUpdate_presence_on_name_change (h : ConnHeap) (update : JsObject)
    (so : Except String Unit) :
    ((handleCredsUpdate h update so).presenceSent ≠ none ↔
      jsField (update "me") "name" ≠ jsField (h.creds "me") "name") ∧
    (jsField (update "me") "name" = none → jsField (h.creds "me") "name" ≠ none →
      (handleCredsUpdate h update so).presenceSent = some none) ∧
    ((handleCredsUpdate h update so).presenceSent ≠ none →
      (handleCredsUpdate h update so).presenceFailureLogged =
        (match so with | Except.error _ => true | Except.ok _ => false)) ∧
    (∀ k v, update k = some v → (handleCredsUpdate h update so).heap.creds k = some v) := by
  rw [handleCredsUpdate_presenceSent_eq, handleCredsUpdate_failureLogged_eq,
    handleCredsUpdate_heap_eq]
  by_cases hname : jsField (h.creds "me") "name" = jsField (update "me") "name"
  · refine ⟨?_, ?_, ?_, ?_⟩
    · simp [hname, eq_comm]
    · intro hu hc
      rw [hu] at hname
      exact absurd hname hc
    · simp [hname]
    · intro k v hk
      simp [objAssign, hk]
  · refine ⟨?_, ?_, ?_, ?_⟩
    · simp only [if_neg hname]
      constructor
      · intro _ hc
        exact hname hc.symm
      · intro _ hc
        exact Option.noConfusion hc
    · intro hu _
      rw [if_neg hname, hu]
    · intro _
      rw [if_neg hname]
    · intro k v hk
      simp [objAssign, hk]

/-- Update whose me object lacks a name field, while the current
credentials do have one: the undefined-name edge case of C10. -/
def updateMeNoNameExample : JsObject :=
  fun k => if k = "me" then some (JsValue.obj [("id", JsPrim.str "123@s")]) else none

theorem handleCredsUpdate_presence_on_name_change_witness :
    ((handleCredsUpdate ⟨7, credsExample⟩ updateMeNoNameExample
        (Except.error "closed")).presenceSent ≠ none ↔
      jsField (updateMeNoNameExample "me") "name" ≠ jsField (credsExample "me") "name") ∧
    (jsField (updateMeNoNameExample "me") "name" = none →
     jsField (credsExample "me") "name" ≠ none →
      (handleCredsUpdate ⟨7, credsExample⟩ updateMeNoNameExample
        (Except.error "closed")).presenceSent = some none) ∧
    ((handleCredsUpdate ⟨7, credsExample⟩ updateMeNoNameExample
        (Except.error "closed")).presenceSent ≠ none →
      (handleCredsUpdate ⟨7, credsExample⟩ updateMeNoNameExample
        (Except.error "closed")).presenceFailureLogged = true) ∧
    (updateMeNoNameExample "me" = some (JsValue.obj [("id", JsPrim.str "123@s")]) →
      (handleCredsUpdate ⟨7, credsExample⟩ updateMeNoNameExample
        (Except.error "closed")).heap.creds "me" =
        some (JsValue.obj [("id", JsPrim.str "123@s")])) :=
  ⟨(handleCredsUpdate_presence_on_name_change ⟨7, credsExample⟩ updateMeNoNameExample
      (Except.error "closed")).1,
   (handleCredsUpdate_presence_on_name_change ⟨7, credsExample⟩ updateMeNoNameExample
      (Except.error "closed")).2.1,
   (handleCredsUpdate_presence_on_name_change ⟨7, credsExample⟩ updateMeNoNameExample
      (Except.error "closed")).2.2.1,
   fun hk => (handleCredsUpdate_presence_on_name_change ⟨7, credsExample⟩ updateMeNoNameExample
      (Except.error "closed")).2.2.2 "me" (JsValue.obj [("id", JsPrim.str "123@s")]) hk⟩
